import Mathlib

/-!
Shallow embedding of the `IncrementalEstimator` orchestrator of the
laser_slam repository (src/laser_slam/src/incremental_estimator.cpp).

The external collaborators (gtsam's ISAM2 backend, LaserTrack, the ICP
scan matcher) are modelled by their narrow interface contracts: the
backend keeps an indexed slot list of factors (update appends new
factors at the end, assigns them successive indices, and marks removed
slots empty); tracks expose time bounds, symbolic value expressions and
a sink for globally estimated values; the ICP computation is an
arbitrary function passed as a parameter.  Rigid transforms and point
clouds are abstract tokens: the orchestrator never inspects them.

Each public operation of the estimator is translated line by line from
the source into a pure function from the estimator state to an
`Outcome` (ok / fatal CHECK abort / out-of-bounds vector access),
paired with the list of observable events it performs (lock
acquisition and release, backend update calls, estimate retrieval), in
source order.
-/

namespace LaserSlam

/-- Timestamps in nanoseconds (curves::Time in the source). -/
abbrev Time := Int

/-- Rigid 3D transforms (kindr SE3) are abstract values here: the
orchestrator only moves them around, it never inspects them. -/
abbrev SE3 := Nat

/-- Point clouds (PointMatcher DataPoints) are abstract tokens. -/
abbrev DataPoints := Nat

/-- Symbolic pose expressions (gtsam Expression over SE3), as built by
lines 93-98 of incremental_estimator.cpp: a track's value expression at
a time, inverse, and composition. -/
inductive Expr where
  | value (trackId : Nat) (t : Time)
  | inv (e : Expr)
  | comp (a b : Expr)
deriving DecidableEq

/-- Noise models: a plain diagonal model from sigmas, or a robust
(Cauchy m-estimator) wrapper around a base model, as constructed in
lines 27-35 of the source. -/
inductive NoiseModel where
  | diagonalSigmas (sigmas : List ℚ)
  | robustCauchy (k : ℚ) (base : NoiseModel)
deriving DecidableEq

/-- Factors held by the backend: the ExpressionFactor built by
processLoopClosure (noise model, measured transform, relative pose
expression), and caller-supplied factors treated as abstract tokens. -/
inductive Factor where
  | exprFactor (noise : NoiseModel) (measured : SE3) (rel : Expr)
  | ext (id : Nat)
deriving DecidableEq

/-- gtsam Values collections: the empty collection, caller-supplied
batches of new variables (abstract), and the backend's computed
estimate, modelled as an abstract deterministic function of the
backend state (the actual solve is outside the embedded code). -/
inductive Values where
  | empty
  | raw (id : Nat)
  | estimateOf (factors : List (Option Factor)) (updateCount : Nat)
deriving DecidableEq

/-- Observable events of one public call: lock acquire/release on
full_class_mutex_, a backend update call (recording the submitted
factors and the factor indices asked to be removed), and retrieval of
the current estimate. -/
inductive Event where
  | lockAcquire
  | lockRelease
  | isam2Update (newFactors : List Factor) (removedIndices : List Nat)
  | calcEstimate
deriving DecidableEq

/-- State of the external ISAM2 backend, per the spec's OptimizerBackend
contract: an indexed slot list of factors (`none` = removed slot) and a
count of update calls performed (standing in for its internal
linearization state). -/
structure ISAM2 where
  factors : List (Option Factor)
  updateCount : Nat
deriving DecidableEq

/-- Result of one backend update call: the indices newly assigned to
the submitted factors. -/
structure ISAM2Result where
  newFactorsIndices : List Nat
deriving DecidableEq

/-- Successive indices `base, base+1, ...` assigned to a batch of new
factors appended to the backend's slot list. -/
def assignIndices (base : Nat) : List Factor → List Nat
  | [] => []
  | _ :: t => base :: assignIndices (base + 1) t

/-- Marks the given slots of the backend's factor list as removed.
Indices beyond the list are out of the embedded code's behavior (gtsam
is external); they are left as no-ops here, and every claim that
depends on removal assumes an in-range index. -/
def removeSlots (l : List (Option Factor)) (idxs : List Nat) : List (Option Factor) :=
  idxs.foldl (fun acc i => acc.set i none) l

/-- The backend's update call: removes the requested slots, appends the
new factors at the end of the slot list, assigns them successive
indices, and advances the internal update counter. -/
def ISAM2.update (s : ISAM2) (newFactors : List Factor) (_newValues : Values)
    (removeIndices : List Nat) : ISAM2 × ISAM2Result :=
  let removed := removeSlots s.factors removeIndices
  (⟨removed ++ newFactors.map some, s.updateCount + 1⟩,
   ⟨assignIndices removed.length newFactors⟩)

/-- The backend's current best estimate for all variables, as an
abstract function of its state. -/
def ISAM2.calculateEstimate (s : ISAM2) : Values :=
  .estimateOf s.factors s.updateCount

/-- Number of live (not removed) constraints held by the backend. -/
def ISAM2.liveFactorCount (s : ISAM2) : Nat :=
  s.factors.countP fun f => f.isSome

/-- Modelled from the spec: LaserTrackParams is declared in a header
that is not under src/; only the ICP configuration file path is
referenced by incremental_estimator.cpp. -/
structure LaserTrackParams where
  icp_configuration_file : String

/-- Modelled from the spec: EstimatorParams is declared in a header
that is not under src/.  Fields follow the spec's construction-time
configuration list (relinearization skip count and threshold,
loop-closure noise sigmas, robust-loss flag, geometric-refinement flag,
refinement sub-map radius) plus the laser-track parameters referenced
by incremental_estimator.cpp. -/
structure EstimatorParams where
  relinearize_skip : Nat
  relinearize_threshold : ℚ
  loop_closure_noise_model : List ℚ
  add_m_estimator_on_loop_closures : Bool
  do_icp_step_on_loop_closures : Bool
  loop_closures_sub_maps_radius : ℚ
  laser_track_params : LaserTrackParams

/-- The relinearization policy the ISAM2 backend was configured with at
construction (gtsam ISAM2Params). -/
structure ISAM2Params where
  relinearizeSkip : Nat
  relinearizeThreshold : ℚ
deriving DecidableEq

/-- ICP configuration of the scan matcher: loaded from a file, or the
built-in default. -/
inductive IcpConfig where
  | fromFile (path : String)
  | default
deriving DecidableEq

/-- External LaserTrack collaborator, per the spec's contract: time
bounds, a sub-map builder (abstract function of center time and
radius), an identifier keying its symbolic value expressions, and the
list of global estimates pushed into it so far (its sink). -/
structure LaserTrack where
  trackId : Nat
  minTime : Time
  maxTime : Time
  buildSubMapAroundTime : Time → ℚ → DataPoints
  received : List Values

/-- The track's symbolic pose expression at a time
(LaserTrack::getValueExpression). -/
def LaserTrack.getValueExpression (tr : LaserTrack) (t : Time) : Expr :=
  .value tr.trackId t

/-- The track's sink for globally estimated values
(LaserTrack::updateFromGTSAMValues). -/
def LaserTrack.updateFromGTSAMValues (tr : LaserTrack) (v : Values) : LaserTrack :=
  { tr with received := tr.received ++ [v] }

/-- A loop-closure candidate (laser_slam RelativePose). -/
structure RelativePose where
  track_id_a : Nat
  track_id_b : Nat
  time_a_ns : Time
  time_b_ns : Time
  T_a_b : SE3

/-- The mutable state of one IncrementalEstimator instance. -/
structure IncrementalEstimator where
  params : EstimatorParams
  nWorkers : Nat
  isam2Params : ISAM2Params
  isam2 : ISAM2
  laserTracks : List LaserTrack
  loopClosureNoiseModel : NoiseModel
  factorIndiceToRemove : Nat
  icpConfig : IcpConfig

/-- Outcome of one public call: normal return, fatal CHECK abort
(carrying the process state at the abort, since glog CHECK failures
abort without unwinding), or an out-of-bounds std::vector access
(undefined behavior in the source). -/
inductive Outcome (α : Type) where
  | ok (val : α) (s : IncrementalEstimator)
  | fatal (msg : String) (s : IncrementalEstimator)
  | oob (s : IncrementalEstimator)

/-- The estimator state carried by an outcome. -/
def Outcome.state : Outcome α → IncrementalEstimator
  | .ok _ s => s
  | .fatal _ s => s
  | .oob s => s

/-- Whether the call returned normally. -/
def Outcome.isOk : Outcome α → Bool
  | .ok _ _ => true
  | _ => false

/-- Whether the call aborted on a failed CHECK. -/
def Outcome.isFatal : Outcome α → Bool
  | .fatal _ _ => true
  | _ => false

/-- Whether the call performed an out-of-bounds vector access. -/
def Outcome.isOob : Outcome α → Bool
  | .oob _ => true
  | _ => false

/-- The constructor (lines 9-48).  It configures the backend with a
hardcoded relinearization policy (skip 1, threshold 0.001), creates N
tracks via the external LaserTrack constructor (passed here as
`mkTrack`), builds the loop-closure noise model per the robust-loss
flag, and loads the ICP configuration from file when the file is
readable (`icpFileGood`, an external filesystem fact) or falls back to
the default.  `initSlot` is the indeterminate initial value of the
never-initialized factor_indice_to_remove_ member. -/
def IncrementalEstimator.init (parameters : EstimatorParams) (n : Nat)
    (mkTrack : LaserTrackParams → Nat → LaserTrack) (icpFileGood : Bool)
    (initSlot : Nat) : IncrementalEstimator :=
  { params := parameters
    nWorkers := n
    isam2Params := ⟨1, 1 / 1000⟩
    isam2 := ⟨[], 0⟩
    laserTracks := (List.range n).map (mkTrack parameters.laser_track_params)
    loopClosureNoiseModel :=
      if parameters.add_m_estimator_on_loop_closures then
        .robustCauchy 1 (.diagonalSigmas parameters.loop_closure_noise_model)
      else
        .diagonalSigmas parameters.loop_closure_noise_model
    factorIndiceToRemove := initSlot
    icpConfig :=
      if icpFileGood then .fromFile parameters.laser_track_params.icp_configuration_file
      else .default }

/-- estimate (lines 114-129): under the lock, one update call with the
new factors and values and no removals, two further no-op update
calls, then calculateEstimate; returns unconditionally. -/
def IncrementalEstimator.estimate (s : IncrementalEstimator)
    (newFactors : List Factor) (newValues : Values) : Outcome Values × List Event :=
  let (i1, _r) := s.isam2.update newFactors newValues []
  let (i2, _) := i1.update [] .empty []
  let (i3, _) := i2.update [] .empty []
  (.ok i3.calculateEstimate { s with isam2 := i3 },
   [.lockAcquire, .isam2Update newFactors [], .isam2Update [] [],
    .isam2Update [] [], .calcEstimate, .lockRelease])

/-- estimateAndRemove (lines 131-149): like estimate, but the first
update call also asks the backend to remove the single factor index
currently held in factor_indice_to_remove_. -/
def IncrementalEstimator.estimateAndRemove (s : IncrementalEstimator)
    (newFactors : List Factor) (newValues : Values) : Outcome Values × List Event :=
  let toRemove := [s.factorIndiceToRemove]
  let (i1, _r) := s.isam2.update newFactors newValues toRemove
  let (i2, _) := i1.update [] .empty []
  let (i3, _) := i2.update [] .empty []
  (.ok i3.calculateEstimate { s with isam2 := i3 },
   [.lockAcquire, .isam2Update newFactors toRemove, .isam2Update [] [],
    .isam2Update [] [], .calcEstimate, .lockRelease])

/-- registerPrior (lines 151-166).  Note that the source acquires no
lock here.  One update call with the new factors; CHECK_EQ that the
backend assigned exactly one new factor index; if the calling worker is
worker 1, record that index into factor_indice_to_remove_; two no-op
update calls; return the current estimate. -/
def IncrementalEstimator.registerPrior (s : IncrementalEstimator)
    (newFactors : List Factor) (newValues : Values) (workerId : Nat) :
    Outcome Values × List Event :=
  let (i1, updateResult) := s.isam2.update newFactors newValues []
  let s1 := { s with isam2 := i1 }
  match updateResult.newFactorsIndices with
  | [idx] =>
      let s2 := if workerId = 1 then { s1 with factorIndiceToRemove := idx } else s1
      let (i2, _) := s2.isam2.update [] .empty []
      let (i3, _) := i2.update [] .empty []
      (.ok i3.calculateEstimate { s2 with isam2 := i3 },
       [.isam2Update newFactors [], .isam2Update [] [], .isam2Update [] [],
        .calcEstimate])
  | _ =>
      (.fatal "CHECK_EQ(update_result.newFactorsIndices.size(), 1u)" s1,
       [.isam2Update newFactors []])

/-- getLaserTrack (lines 168-173): under the lock, CHECK_GE(id, 0)
(vacuous for an unsigned id) and CHECK_LT(id, laser_tracks_.size()),
then return the shared track handle. -/
def IncrementalEstimator.getLaserTrack (s : IncrementalEstimator)
    (laserTrackId : Nat) : Outcome LaserTrack × List Event :=
  if h : laserTrackId < s.laserTracks.length then
    (.ok (s.laserTracks.get ⟨laserTrackId, h⟩) s, [.lockAcquire, .lockRelease])
  else
    (.fatal "CHECK_LT(laser_track_id, laser_tracks_.size())" s, [.lockAcquire])

/-- processLoopClosure (lines 50-112).  Under the lock: the five time
CHECKs in source order (each indexing laser_tracks_ at the candidate's
track ids without a bounds check, modelled by the `oob` outcome when
the lookup fails); the optional ICP refinement of the candidate's
transform (icpCompute abstracts icp_.compute together with the
float-matrix conversions around it, aligning sub_map_b onto sub_map_a
from the candidate's transform); construction of the single
ExpressionFactor relating the two symbolic poses; submission via
estimateAndRemove (reacquiring the reentrant lock); and the push of
the resulting estimate into every track. -/
def IncrementalEstimator.processLoopClosure
    (icpCompute : IcpConfig → DataPoints → DataPoints → SE3 → SE3)
    (s : IncrementalEstimator) (lc : RelativePose) : Outcome Unit × List Event :=
  if lc.time_a_ns < lc.time_b_ns then
    match s.laserTracks[lc.track_id_a]? with
    | none => (.oob s, [.lockAcquire])
    | some ta =>
      if ta.minTime ≤ lc.time_a_ns then
        if lc.time_a_ns ≤ ta.maxTime then
          match s.laserTracks[lc.track_id_b]? with
          | none => (.oob s, [.lockAcquire])
          | some tb =>
            if tb.minTime ≤ lc.time_b_ns then
              if lc.time_b_ns ≤ tb.maxTime then
                let T_ab :=
                  if s.params.do_icp_step_on_loop_closures then
                    icpCompute s.icpConfig
                      (tb.buildSubMapAroundTime lc.time_b_ns
                        s.params.loop_closures_sub_maps_radius)
                      (ta.buildSubMapAroundTime lc.time_a_ns
                        s.params.loop_closures_sub_maps_radius)
                      lc.T_a_b
                  else lc.T_a_b
                let T_w_b := tb.getValueExpression lc.time_b_ns
                let T_w_a := ta.getValueExpression lc.time_a_ns
                let relative := Expr.comp (.inv T_w_a) T_w_b
                let newFactor := Factor.exprFactor s.loopClosureNoiseModel T_ab relative
                match s.estimateAndRemove [newFactor] .empty with
                | (.ok result s2, innerEvents) =>
                    let s3 := { s2 with laserTracks :=
                      s2.laserTracks.map (fun tr => tr.updateFromGTSAMValues result) }
                    (.ok () s3, Event.lockAcquire :: innerEvents ++ [Event.lockRelease])
                | (.fatal m s2, innerEvents) =>
                    (.fatal m s2, Event.lockAcquire :: innerEvents)
                | (.oob s2, innerEvents) =>
                    (.oob s2, Event.lockAcquire :: innerEvents)
              else (.fatal "Loop closure has invalid time." s, [.lockAcquire])
            else (.fatal "Loop closure has invalid time." s, [.lockAcquire])
        else (.fatal "Loop closure has invalid time." s, [.lockAcquire])
      else (.fatal "Loop closure has invalid time." s, [.lockAcquire])
  else (.fatal "Loop closure has invalid time." s, [.lockAcquire])

/-- The time-bound invariants of a loop-closure candidate against the
two referenced tracks (the conditions of the five CHECKs in lines
52-60). -/
def timeChecksOK (lc : RelativePose) (ta tb : LaserTrack) : Prop :=
  lc.time_a_ns < lc.time_b_ns ∧ ta.minTime ≤ lc.time_a_ns ∧
  lc.time_a_ns ≤ ta.maxTime ∧ tb.minTime ≤ lc.time_b_ns ∧ lc.time_b_ns ≤ tb.maxTime

instance (lc : RelativePose) (ta tb : LaserTrack) : Decidable (timeChecksOK lc ta tb) := by
  unfold timeChecksOK; infer_instance

/-- The nonempty factor batches submitted to the backend in a list of
events (used to state what a call submitted, ignoring no-op updates). -/
def backendUpdateFactorBatches (evs : List Event) : List (List Factor) :=
  evs.filterMap fun e =>
    match e with
    | .isam2Update nf _ => if nf = [] then none else some nf
    | _ => none

/-- A concrete track used by the executable witnesses: worker `i`,
poses spanning [0, 100] ns. -/
def demoTrack (i : Nat) : LaserTrack :=
  { trackId := i, minTime := 0, maxTime := 100,
    buildSubMapAroundTime := fun _ _ => i, received := [] }

/-- Concrete estimator parameters used by the executable witnesses. -/
def demoParams : EstimatorParams :=
  { relinearize_skip := 5
    relinearize_threshold := 2
    loop_closure_noise_model := [1, 1, 1, 1, 1, 1]
    add_m_estimator_on_loop_closures := false
    do_icp_step_on_loop_closures := false
    loop_closures_sub_maps_radius := 0
    laser_track_params := ⟨"icp_config.yaml"⟩ }

/-- A concrete estimator state with two tracks and one live prior
constraint in the backend (slot 0, recorded for removal). -/
def demoState : IncrementalEstimator :=
  { params := demoParams
    nWorkers := 2
    isam2Params := ⟨1, 1 / 1000⟩
    isam2 := ⟨[some (.ext 0)], 0⟩
    laserTracks := [demoTrack 0, demoTrack 1]
    loopClosureNoiseModel := .diagonalSigmas [1, 1, 1, 1, 1, 1]
    factorIndiceToRemove := 0
    icpConfig := .default }

/-- A concrete stand-in for the external ICP computation. -/
def demoIcp : IcpConfig → DataPoints → DataPoints → SE3 → SE3 :=
  fun _ _ _ guess => guess

/-- A valid loop-closure candidate for demoState. -/
def demoLC : RelativePose :=
  { track_id_a := 0, track_id_b := 1, time_a_ns := 10, time_b_ns := 50, T_a_b := 3 }

/-- A candidate violating time_a < time_b (ids in range). -/
def demoBadLC : RelativePose :=
  { track_id_a := 0, track_id_b := 1, time_a_ns := 50, time_b_ns := 10, T_a_b := 3 }

/-- Helper: marking a live slot of the backend's factor list as removed
decreases the live-constraint count by exactly one. -/
theorem countP_isSome_set_none (l : List (Option Factor)) (i : Nat) (hi : i < l.length)
    (hs : (l.get ⟨i, hi⟩).isSome = true) :
    ((l.set i none).countP (fun f => f.isSome)) + 1 = l.countP (fun f => f.isSome) := by
  induction l generalizing i with
  | nil => simp at hi
  | cons a t ih =>
    cases i with
    | zero =>
      simp only [List.get] at hs
      simp [List.set, List.countP_cons, hs]
    | succ n =>
      have hn : n < t.length := by simpa using hi
      have hs' : (t.get ⟨n, hn⟩).isSome = true := hs
      have := ih n hn hs'
      simp only [List.set, List.countP_cons]
      omega

/-- C3 counterexample: at a concrete configuration requesting
relinearization skip 5 and threshold 2, the backend is configured with
skip 1 and threshold 1/1000 instead — the constructor ignores the
passed relinearization policy. -/
theorem relinearization_params_ignored_counterexample :
    (IncrementalEstimator.init demoParams 2 (fun _ i => demoTrack i) true 0).isam2Params.relinearizeSkip ≠
      demoParams.relinearize_skip ∧
    (IncrementalEstimator.init demoParams 2 (fun _ i => demoTrack i) true 0).isam2Params.relinearizeThreshold ≠
      demoParams.relinearize_threshold := by
  refine ⟨by decide, ?_⟩
  show (1 : ℚ) / 1000 ≠ 2
  norm_num

/-- C3 (amended): construction configures the OptimizerBackend with the
fixed relinearization policy skip = 1 and threshold = 1/1000,
regardless of the relinearization values in the passed estimation
parameters. -/
theorem relinearization_policy_hardcoded (parameters : EstimatorParams) (n : Nat)
    (mkTrack : LaserTrackParams → Nat → LaserTrack) (icpFileGood : Bool) (initSlot : Nat) :
    (IncrementalEstimator.init parameters n mkTrack icpFileGood initSlot).isam2Params =
      ⟨1, 1 / 1000⟩ :=
  rfl

/-- C9: for every batch, `estimate` performs exactly the event sequence
lock, update(batch, no removals), two no-op updates, estimate
retrieval, unlock; it returns normally and unconditionally with the
backend's current best estimate; the backend gains exactly the new
factors (nothing removed) and exactly three update calls. -/
theorem estimate_call_pattern (s : IncrementalEstimator) (newFactors : List Factor)
    (newValues : Values) :
    (s.estimate newFactors newValues).2 =
      [Event.lockAcquire, Event.isam2Update newFactors [], Event.isam2Update [] [],
       Event.isam2Update [] [], Event.calcEstimate, Event.lockRelease] ∧
    (s.estimate newFactors newValues).1 =
      .ok (s.estimate newFactors newValues).1.state.isam2.calculateEstimate
        (s.estimate newFactors newValues).1.state ∧
    (s.estimate newFactors newValues).1.state.isam2.factors =
      s.isam2.factors ++ newFactors.map some ∧
    (s.estimate newFactors newValues).1.state.isam2.updateCount = s.isam2.updateCount + 3 := by
  refine ⟨rfl, rfl, ?_, rfl⟩
  simp [IncrementalEstimator.estimate, ISAM2.update, removeSlots, Outcome.state]

/-- C4: `estimate` raises the backend's live-constraint count by
exactly the number of submitted constraints, and `estimateAndRemove`,
whenever the replaceable-prior slot names a live backend constraint,
raises it by exactly that number minus one (it removes exactly the
slot's constraint). -/
theorem estimate_constraint_delta :
    (∀ (s : IncrementalEstimator) (nf : List Factor) (nv : Values),
      (s.estimate nf nv).1.state.isam2.liveFactorCount =
        s.isam2.liveFactorCount + nf.length) ∧
    (∀ (s : IncrementalEstimator) (nf : List Factor) (nv : Values)
      (hi : s.factorIndiceToRemove < s.isam2.factors.length),
      (s.isam2.factors.get ⟨s.factorIndiceToRemove, hi⟩).isSome = true →
      (s.estimateAndRemove nf nv).1.state.isam2.liveFactorCount + 1 =
        s.isam2.liveFactorCount + nf.length) := by
  constructor
  · intro s nf nv
    simp [IncrementalEstimator.estimate, ISAM2.update, removeSlots, Outcome.state,
      ISAM2.liveFactorCount, List.countP_append, List.countP_map, Function.comp]
  · intro s nf nv hi hlive
    have hset := countP_isSome_set_none s.isam2.factors s.factorIndiceToRemove hi hlive
    have hmap : List.countP (fun (f : Option Factor) => f.isSome) (nf.map some) = nf.length := by
      simp
    simp only [IncrementalEstimator.estimateAndRemove, ISAM2.update, removeSlots,
      Outcome.state, ISAM2.liveFactorCount, List.foldl_nil, List.foldl_cons,
      List.map_nil, List.append_nil, List.countP_append, hmap]
    omega

/-- C4 witness: at the concrete demo state (one live constraint, slot
0), adding one constraint via `estimate` yields two live constraints,
and adding two constraints via `estimateAndRemove` also yields two. -/
theorem estimate_constraint_delta_witness :
    (demoState.estimate [Factor.ext 5] Values.empty).1.state.isam2.liveFactorCount =
      demoState.isam2.liveFactorCount + 1 ∧
    (demoState.estimateAndRemove [Factor.ext 5, Factor.ext 6] Values.empty).1.state.isam2.liveFactorCount + 1 =
      demoState.isam2.liveFactorCount + 2 :=
  ⟨estimate_constraint_delta.1 demoState [Factor.ext 5] Values.empty,
   estimate_constraint_delta.2 demoState [Factor.ext 5, Factor.ext 6] Values.empty
     (by decide) (by decide)⟩

/-- C5: the replaceable-prior slot is left unchanged by `estimate`,
`estimateAndRemove`, `processLoopClosure` and `getLaserTrack` on every
input, and by `registerPrior` whenever the calling worker is not the
anchor worker 1. -/
theorem replaceable_prior_slot_frame :
    (∀ (s : IncrementalEstimator) (nf : List Factor) (nv : Values),
      (s.estimate nf nv).1.state.factorIndiceToRemove = s.factorIndiceToRemove) ∧
    (∀ (s : IncrementalEstimator) (nf : List Factor) (nv : Values),
      (s.estimateAndRemove nf nv).1.state.factorIndiceToRemove = s.factorIndiceToRemove) ∧
    (∀ (ic : IcpConfig → DataPoints → DataPoints → SE3 → SE3)
      (s : IncrementalEstimator) (lc : RelativePose),
      (s.processLoopClosure ic lc).1.state.factorIndiceToRemove = s.factorIndiceToRemove) ∧
    (∀ (s : IncrementalEstimator) (i : Nat),
      (s.getLaserTrack i).1.state.factorIndiceToRemove = s.factorIndiceToRemove) ∧
    (∀ (s : IncrementalEstimator) (nf : List Factor) (nv : Values) (w : Nat), w ≠ 1 →
      (s.registerPrior nf nv w).1.state.factorIndiceToRemove = s.factorIndiceToRemove) := by
  refine ⟨fun s nf nv => rfl, fun s nf nv => rfl, ?_, ?_, ?_⟩
  · intro ic s lc
    simp only [IncrementalEstimator.processLoopClosure,
      IncrementalEstimator.estimateAndRemove, ISAM2.update]
    repeat' split
    all_goals rfl
  · intro s i
    simp only [IncrementalEstimator.getLaserTrack]
    split
    all_goals rfl
  · intro s nf nv w hw
    simp only [IncrementalEstimator.registerPrior, ISAM2.update]
    split
    · simp [Outcome.state, hw]
    · rfl

/-- C5 witness: a registerPrior call from the non-anchor worker 0 at
the concrete demo state leaves the replaceable-prior slot unchanged. -/
theorem replaceable_prior_slot_frame_witness :
    (demoState.registerPrior [Factor.ext 9] Values.empty 0).1.state.factorIndiceToRemove =
      demoState.factorIndiceToRemove :=
  replaceable_prior_slot_frame.2.2.2.2 demoState [Factor.ext 9] Values.empty 0 (by decide)

/-- C1 counterexample: a concrete registerPrior call performs a backend
update without ever acquiring the class lock, refuting that every
public operation acquires the lock for the duration of the call. -/
theorem registerPrior_no_lock_counterexample :
    Event.lockAcquire ∉ (demoState.registerPrior [Factor.ext 7] Values.empty 1).2 ∧
    Event.isam2Update [Factor.ext 7] [] ∈ (demoState.registerPrior [Factor.ext 7] Values.empty 1).2 :=
  ⟨by decide, by decide⟩

/-- C1 (amended): estimate, estimateAndRemove, processLoopClosure and
getLaserTrack each acquire the reentrant lock as their first action and
hold it for the whole call, releasing it as their last action whenever
the call returns normally; registerPrior, by contrast, never acquires
or releases the lock. -/
theorem lock_discipline_amended :
    (∀ (s : IncrementalEstimator) (nf : List Factor) (nv : Values),
      (s.estimate nf nv).2.head? = some Event.lockAcquire ∧
      (s.estimate nf nv).2.getLast? = some Event.lockRelease) ∧
    (∀ (s : IncrementalEstimator) (nf : List Factor) (nv : Values),
      (s.estimateAndRemove nf nv).2.head? = some Event.lockAcquire ∧
      (s.estimateAndRemove nf nv).2.getLast? = some Event.lockRelease) ∧
    (∀ (ic : IcpConfig → DataPoints → DataPoints → SE3 → SE3)
      (s : IncrementalEstimator) (lc : RelativePose),
      (s.processLoopClosure ic lc).2.head? = some Event.lockAcquire ∧
      ((s.processLoopClosure ic lc).1.isOk = true →
        (s.processLoopClosure ic lc).2.getLast? = some Event.lockRelease)) ∧
    (∀ (s : IncrementalEstimator) (i : Nat),
      (s.getLaserTrack i).2.head? = some Event.lockAcquire ∧
      ((s.getLaserTrack i).1.isOk = true →
        (s.getLaserTrack i).2.getLast? = some Event.lockRelease)) ∧
    (∀ (s : IncrementalEstimator) (nf : List Factor) (nv : Values) (w : Nat),
      Event.lockAcquire ∉ (s.registerPrior nf nv w).2 ∧
      Event.lockRelease ∉ (s.registerPrior nf nv w).2) := by
  refine ⟨fun s nf nv => ⟨rfl, rfl⟩, fun s nf nv => ⟨rfl, rfl⟩, ?_, ?_, ?_⟩
  · intro ic s lc
    constructor
    · simp only [IncrementalEstimator.processLoopClosure,
        IncrementalEstimator.estimateAndRemove, ISAM2.update]
      repeat' split
      all_goals rfl
    · simp only [IncrementalEstimator.processLoopClosure,
        IncrementalEstimator.estimateAndRemove, ISAM2.update]
      repeat' split
      all_goals intro h
      all_goals first
        | rfl
        | simp [Outcome.isOk] at h
  · intro s i
    simp only [IncrementalEstimator.getLaserTrack]
    split
    · exact ⟨rfl, fun _ => rfl⟩
    · refine ⟨rfl, fun h => ?_⟩
      simp [Outcome.isOk] at h
  · intro s nf nv w
    simp only [IncrementalEstimator.registerPrior, ISAM2.update]
    split
    · constructor <;> simp
    · constructor <;> simp

/-- C1 (amended) witness: the concrete valid loop closure and the
concrete in-range track access both finish with the lock release. -/
theorem lock_discipline_amended_witness :
    (demoState.processLoopClosure demoIcp demoLC).2.getLast? = some Event.lockRelease ∧
    (demoState.getLaserTrack 0).2.getLast? = some Event.lockRelease :=
  ⟨(lock_discipline_amended.2.2.1 demoIcp demoState demoLC).2 (by decide),
   (lock_discipline_amended.2.2.2.1 demoState 0).2 (by decide)⟩

/-- C2: a loop-closure candidate whose track ids are in range but which
violates one of the five time-bound CHECKs makes processLoopClosure
abort fatally with the estimator state untouched and the lock
acquisition as its only performed event — in particular no backend
update call is made. -/
theorem loopClosure_invalid_time_aborts
    (ic : IcpConfig → DataPoints → DataPoints → SE3 → SE3)
    (s : IncrementalEstimator) (lc : RelativePose) (ta tb : LaserTrack)
    (hta : s.laserTracks[lc.track_id_a]? = some ta)
    (htb : s.laserTracks[lc.track_id_b]? = some tb)
    (hviol : ¬ timeChecksOK lc ta tb) :
    s.processLoopClosure ic lc =
      (.fatal "Loop closure has invalid time." s, [Event.lockAcquire]) := by
  by_cases h1 : lc.time_a_ns < lc.time_b_ns
  · simp only [IncrementalEstimator.processLoopClosure, if_pos h1, hta]
    by_cases h2 : ta.minTime ≤ lc.time_a_ns
    · simp only [if_pos h2]
      by_cases h3 : lc.time_a_ns ≤ ta.maxTime
      · simp only [if_pos h3, htb]
        by_cases h4 : tb.minTime ≤ lc.time_b_ns
        · simp only [if_pos h4]
          by_cases h5 : lc.time_b_ns ≤ tb.maxTime
          · exact absurd ⟨h1, h2, h3, h4, h5⟩ hviol
          · simp only [if_neg h5]
        · simp only [if_neg h4]
      · simp only [if_neg h3]
    · simp only [if_neg h2]
  · simp only [IncrementalEstimator.processLoopClosure, if_neg h1]

/-- C2 witness: the concrete candidate with time_a = 50 ≥ time_b = 10
aborts fatally, leaving the demo state untouched and performing only
the lock acquisition. -/
theorem loopClosure_invalid_time_aborts_witness :
    demoState.processLoopClosure demoIcp demoBadLC =
      (.fatal "Loop closure has invalid time." demoState, [Event.lockAcquire]) :=
  loopClosure_invalid_time_aborts demoIcp demoState demoBadLC (demoTrack 0) (demoTrack 1)
    rfl rfl (by decide)

/-- C6: whenever the backend's update result for the submitted batch
reports a number of newly assigned factor indices different from one,
registerPrior aborts on the CHECK_EQ with the replaceable-prior slot
still unchanged. -/
theorem registerPrior_bad_count_aborts (s : IncrementalEstimator)
    (nf : List Factor) (nv : Values) (wid : Nat)
    (h : ((s.isam2.update nf nv []).2).newFactorsIndices.length ≠ 1) :
    (s.registerPrior nf nv wid).1.isFatal = true ∧
    (s.registerPrior nf nv wid).1.state.factorIndiceToRemove = s.factorIndiceToRemove := by
  rcases nf with _ | ⟨a, t⟩
  · exact ⟨rfl, rfl⟩
  · rcases t with _ | ⟨b, t2⟩
    · exact absurd rfl h
    · exact ⟨rfl, rfl⟩

/-- C6 witness: submitting an empty batch (the backend then reports
zero new indices) makes the concrete registerPrior call abort with the
slot unchanged. -/
theorem registerPrior_bad_count_aborts_witness :
    (demoState.registerPrior [] Values.empty 1).1.isFatal = true ∧
    (demoState.registerPrior [] Values.empty 1).1.state.factorIndiceToRemove =
      demoState.factorIndiceToRemove :=
  registerPrior_bad_count_aborts demoState [] Values.empty 1 (by decide)

/-- C7: for a valid candidate, the only nonempty factor batch submitted
to the backend during processLoopClosure is a single expression factor
weighted by the construction-time loop-closure noise model, relating
the expression inverse(pose of track_a at time_a) composed with (pose
of track_b at time_b) to some measured transform. -/
theorem loopClosure_factor_shape
    (ic : IcpConfig → DataPoints → DataPoints → SE3 → SE3)
    (s : IncrementalEstimator) (lc : RelativePose) (ta tb : LaserTrack)
    (hta : s.laserTracks[lc.track_id_a]? = some ta)
    (htb : s.laserTracks[lc.track_id_b]? = some tb)
    (hok : timeChecksOK lc ta tb) :
    ∃ T, backendUpdateFactorBatches (s.processLoopClosure ic lc).2 =
      [[Factor.exprFactor s.loopClosureNoiseModel T
          (Expr.comp (Expr.inv (ta.getValueExpression lc.time_a_ns))
            (tb.getValueExpression lc.time_b_ns))]] := by
  obtain ⟨h1, h2, h3, h4, h5⟩ := hok
  refine ⟨if s.params.do_icp_step_on_loop_closures then
      ic s.icpConfig
        (tb.buildSubMapAroundTime lc.time_b_ns s.params.loop_closures_sub_maps_radius)
        (ta.buildSubMapAroundTime lc.time_a_ns s.params.loop_closures_sub_maps_radius)
        lc.T_a_b
    else lc.T_a_b, ?_⟩
  simp only [IncrementalEstimator.processLoopClosure, if_pos h1, hta, if_pos h2, if_pos h3,
    htb, if_pos h4, if_pos h5, IncrementalEstimator.estimateAndRemove, ISAM2.update]
  simp [backendUpdateFactorBatches]

/-- C7 witness: at the concrete valid candidate, the only submitted
batch is the single expression factor between track 0's pose at 10 ns
and track 1's pose at 50 ns under the demo noise model. -/
theorem loopClosure_factor_shape_witness :
    ∃ T, backendUpdateFactorBatches (demoState.processLoopClosure demoIcp demoLC).2 =
      [[Factor.exprFactor demoState.loopClosureNoiseModel T
          (Expr.comp (Expr.inv ((demoTrack 0).getValueExpression demoLC.time_a_ns))
            ((demoTrack 1).getValueExpression demoLC.time_b_ns))]] :=
  loopClosure_factor_shape demoIcp demoState demoLC (demoTrack 0) (demoTrack 1)
    rfl rfl (by decide)

/-- C8: for a valid candidate, processLoopClosure returns normally and
the final state's track collection is exactly the old collection with
the backend's resulting estimate pushed into every single track's
sink. -/
theorem loopClosure_updates_all_tracks
    (ic : IcpConfig → DataPoints → DataPoints → SE3 → SE3)
    (s : IncrementalEstimator) (lc : RelativePose) (ta tb : LaserTrack)
    (hta : s.laserTracks[lc.track_id_a]? = some ta)
    (htb : s.laserTracks[lc.track_id_b]? = some tb)
    (hok : timeChecksOK lc ta tb) :
    ∃ s2, (s.processLoopClosure ic lc).1 = .ok () s2 ∧
      s2.laserTracks = s.laserTracks.map
        (fun tr => tr.updateFromGTSAMValues s2.isam2.calculateEstimate) := by
  obtain ⟨h1, h2, h3, h4, h5⟩ := hok
  simp only [IncrementalEstimator.processLoopClosure, if_pos h1, hta, if_pos h2, if_pos h3,
    htb, if_pos h4, if_pos h5, IncrementalEstimator.estimateAndRemove, ISAM2.update]
  exact ⟨_, rfl, rfl⟩

/-- C8 witness: the concrete valid candidate leaves both demo tracks
with the resulting estimate appended to their sinks. -/
theorem loopClosure_updates_all_tracks_witness :
    ∃ s2, (demoState.processLoopClosure demoIcp demoLC).1 = .ok () s2 ∧
      s2.laserTracks = demoState.laserTracks.map
        (fun tr => tr.updateFromGTSAMValues s2.isam2.calculateEstimate) :=
  loopClosure_updates_all_tracks demoIcp demoState demoLC (demoTrack 0) (demoTrack 1)
    rfl rfl (by decide)

/-- C10: with both track ids within the track collection, every branch
of processLoopClosure avoids the unchecked out-of-bounds vector access;
and the out-of-bounds access is reachable as soon as a track id is out
of range with the first time CHECK passing, since no CHECK guards the
track ids. -/
theorem track_lookup_bounds :
    (∀ (ic : IcpConfig → DataPoints → DataPoints → SE3 → SE3)
      (s : IncrementalEstimator) (lc : RelativePose),
      lc.track_id_a < s.laserTracks.length → lc.track_id_b < s.laserTracks.length →
      (s.processLoopClosure ic lc).1.isOob = false) ∧
    (∃ (ic : IcpConfig → DataPoints → DataPoints → SE3 → SE3)
      (s : IncrementalEstimator) (lc : RelativePose),
      s.laserTracks.length ≤ lc.track_id_a ∧
      (s.processLoopClosure ic lc).1.isOob = true) := by
  constructor
  · intro ic s lc ha hb
    have hta : s.laserTracks[lc.track_id_a]? = some (s.laserTracks[lc.track_id_a]) :=
      List.getElem?_eq_getElem ha
    have htb : s.laserTracks[lc.track_id_b]? = some (s.laserTracks[lc.track_id_b]) :=
      List.getElem?_eq_getElem hb
    simp only [IncrementalEstimator.processLoopClosure, hta, htb,
      IncrementalEstimator.estimateAndRemove, ISAM2.update]
    repeat' split
    all_goals simp [Outcome.isOob]
  · exact ⟨demoIcp, demoState, ⟨5, 1, 10, 50, 3⟩, by decide, by decide⟩

/-- C10 witness: the concrete valid candidate, whose track ids 0 and 1
are within the two-track demo collection, avoids the out-of-bounds
access. -/
theorem track_lookup_bounds_witness :
    (demoState.processLoopClosure demoIcp demoLC).1.isOob = false :=
  track_lookup_bounds.1 demoIcp demoState demoLC (by decide) (by decide)

end LaserSlam
